import Mathlib

set_option maxRecDepth 8000

/-!
Verification of the Multi-Provider Normalization & Orchestration Engine
(multi-model chat application).  The definitions below are a shallow
embedding of the TypeScript source: the conversation data model
(`src/types.ts`), the attachment codec (`src/utils/files.ts`), the chat
provider adapters (`src/services/llm/providers/*`), the image provider
adapters (`src/services/llm/image/*`), and the orchestrator
(`App.tsx`: `handleSend`, `sendMessageToModel`, `handleGlobalCompare`)
together with the thread state actions (`useChatState.ts`:
`updateThread`, `addMessage`).
-/

namespace Council

/-- Message author role, `src/types.ts` (`'user' | 'model'`). -/
inductive Role
  | user
  | model
deriving DecidableEq, Repr

/-- File attachment, `src/types.ts` (`data` is the base64 payload). -/
structure Attachment where
  mimeType : String
  data : String
  name : String
deriving DecidableEq, Repr

/-- Token usage reported by a provider, `src/types.ts`. -/
structure TokenUsage where
  inputTokens : Nat
  outputTokens : Nat
  totalTokens : Nat
deriving DecidableEq, Repr

/-- A message in a thread, `src/types.ts`.  The `id` and `timestamp`
fields of the source (generated from `Date.now()` and `Math.random()`)
are omitted: no message-construction logic reads them. -/
structure Message where
  role : Role
  text : String
  attachment : Option Attachment := none
  usage : Option TokenUsage := none
deriving DecidableEq, Repr

/-! ### String helpers (JavaScript semantics)

`String.prototype.startsWith` / `includes` / `trim`, modelled over
character lists so that all definitions reduce by `decide`. -/

/-- `pat` is an initial segment of `l` (JS `startsWith` on the data). -/
def startsWithChars : List Char → List Char → Bool
  | [], _ => true
  | _ :: _, [] => false
  | p :: ps, c :: cs => p = c && startsWithChars ps cs

/-- `pat` occurs as a contiguous run in the second list (JS `includes`). -/
def containsChars (pat : List Char) : List Char → Bool
  | [] => startsWithChars pat []
  | c :: cs => startsWithChars pat (c :: cs) || containsChars pat cs

/-- JS `s.startsWith(pat)`. -/
def strStartsWith (s pat : String) : Bool := startsWithChars pat.data s.data

/-- JS `s.includes(pat)`. -/
def strIncludes (s pat : String) : Bool := containsChars pat.data s.data

/-- JS whitespace (the characters `String.prototype.trim` removes;
the common ASCII subset). -/
def isJsWhitespace (c : Char) : Bool :=
  c = Char.ofNat 32 || c = Char.ofNat 9 || c = Char.ofNat 10 ||
  c = Char.ofNat 11 || c = Char.ofNat 12 || c = Char.ofNat 13

/-- JS `s.trim()`. -/
def jsTrim (s : String) : String :=
  String.mk (((s.data.dropWhile isJsWhitespace).reverse.dropWhile isJsWhitespace).reverse)

/-! ### Attachment codec, `src/utils/files.ts` -/

/-- The `EXTENSION_TO_MIME` table of `src/utils/files.ts`, as a lookup. -/
def extensionToMime : String → Option String
  | ".md" => some "text/markdown"
  | ".markdown" => some "text/markdown"
  | ".txt" => some "text/plain"
  | ".text" => some "text/plain"
  | ".log" => some "text/plain"
  | ".cfg" => some "text/plain"
  | ".conf" => some "text/plain"
  | ".ini" => some "text/plain"
  | ".js" => some "text/javascript"
  | ".mjs" => some "text/javascript"
  | ".cjs" => some "text/javascript"
  | ".jsx" => some "text/jsx"
  | ".ts" => some "text/typescript"
  | ".tsx" => some "text/tsx"
  | ".py" => some "text/x-python"
  | ".rb" => some "text/x-ruby"
  | ".go" => some "text/x-go"
  | ".rs" => some "text/x-rust"
  | ".java" => some "text/x-java"
  | ".c" => some "text/x-c"
  | ".cpp" => some "text/x-c++"
  | ".h" => some "text/x-c"
  | ".hpp" => some "text/x-c++"
  | ".cs" => some "text/x-csharp"
  | ".swift" => some "text/x-swift"
  | ".kt" => some "text/x-kotlin"
  | ".scala" => some "text/x-scala"
  | ".php" => some "text/x-php"
  | ".pl" => some "text/x-perl"
  | ".sh" => some "text/x-shellscript"
  | ".bash" => some "text/x-shellscript"
  | ".zsh" => some "text/x-shellscript"
  | ".fish" => some "text/x-shellscript"
  | ".ps1" => some "text/x-powershell"
  | ".lua" => some "text/x-lua"
  | ".r" => some "text/x-r"
  | ".sql" => some "text/x-sql"
  | ".m" => some "text/x-matlab"
  | ".jl" => some "text/x-julia"
  | ".html" => some "text/html"
  | ".htm" => some "text/html"
  | ".css" => some "text/css"
  | ".scss" => some "text/x-scss"
  | ".sass" => some "text/x-sass"
  | ".less" => some "text/x-less"
  | ".xml" => some "application/xml"
  | ".svg" => some "image/svg+xml"
  | ".vue" => some "text/x-vue"
  | ".svelte" => some "text/x-svelte"
  | ".json" => some "application/json"
  | ".jsonl" => some "application/jsonl"
  | ".yaml" => some "text/yaml"
  | ".yml" => some "text/yaml"
  | ".toml" => some "text/x-toml"
  | ".csv" => some "text/csv"
  | ".tsv" => some "text/tab-separated-values"
  | ".rst" => some "text/x-rst"
  | ".asciidoc" => some "text/asciidoc"
  | ".adoc" => some "text/asciidoc"
  | ".tex" => some "text/x-tex"
  | ".latex" => some "text/x-latex"
  | ".env" => some "text/plain"
  | ".gitignore" => some "text/plain"
  | ".dockerignore" => some "text/plain"
  | ".editorconfig" => some "text/plain"
  | ".prettierrc" => some "application/json"
  | ".eslintrc" => some "application/json"
  | ".babelrc" => some "application/json"
  | ".png" => some "image/png"
  | ".jpg" => some "image/jpeg"
  | ".jpeg" => some "image/jpeg"
  | ".gif" => some "image/gif"
  | ".webp" => some "image/webp"
  | ".ico" => some "image/x-icon"
  | ".bmp" => some "image/bmp"
  | ".tiff" => some "image/tiff"
  | ".tif" => some "image/tiff"
  | ".pdf" => some "application/pdf"
  | ".doc" => some "application/msword"
  | ".docx" => some "application/vnd.openxmlformats-officedocument.wordprocessingml.document"
  | ".xls" => some "application/vnd.ms-excel"
  | ".xlsx" => some "application/vnd.openxmlformats-officedocument.spreadsheetml.sheet"
  | ".ppt" => some "application/vnd.ms-powerpoint"
  | ".pptx" => some "application/vnd.openxmlformats-officedocument.presentationml.presentation"
  | _ => none

/-- The suffix of the list from its last `.` (inclusive), mirroring
`filename.slice(filename.lastIndexOf('.'))`; `none` when there is no
dot (`lastIndexOf` returned `-1`). -/
def extAfterLastDot : List Char → Option (List Char)
  | [] => none
  | c :: cs =>
    match extAfterLastDot cs with
    | some e => some e
    | none => if c = '.' then some (c :: cs) else none

/-- The lowercased extension of a filename (including the dot), or
`none` when the filename has no dot. -/
def extOf (filename : String) : Option String :=
  (extAfterLastDot filename.data).map (fun l => String.mk (l.map Char.toLower))

/-- The `/^\.[a-z]+$/` test of `detectMimeType` combined with the
`extension.length <= 5` bound: an unknown extension that still looks
like a text-file extension. -/
def isPlausibleTextExt (ext : String) : Bool :=
  decide (ext.length ≤ 5) &&
    (match ext.data with
     | c :: cs => c = '.' && !cs.isEmpty && cs.all (fun d => 'a' ≤ d && d ≤ 'z')
     | [] => false)

/-- `detectMimeType` of `src/utils/files.ts`: prefer a non-generic
browser hint, else the extension table, else `text/plain` for
plausible text extensions (and for filenames without a dot), else
`application/octet-stream`. -/
def detectMimeType (filename : String) (browserMimeType : String := "") : String :=
  if browserMimeType ≠ "" ∧ browserMimeType ≠ "application/octet-stream" then
    browserMimeType
  else
    match extOf filename with
    | none => "text/plain"
    | some ext =>
      match extensionToMime ext with
      | some m => m
      | none =>
        if isPlausibleTextExt ext then "text/plain" else "application/octet-stream"

/-- `isTextBasedMime` of `src/utils/files.ts`. -/
def isTextBasedMime (mime : String) : Bool :=
  if strStartsWith mime "text/" then true
  else if ["application/json", "application/jsonl", "application/xml",
           "application/javascript", "application/typescript",
           "application/x-javascript", "application/x-typescript"].contains mime then true
  else strIncludes mime "javascript" || strIncludes mime "typescript" ||
       strIncludes mime "python" || strIncludes mime "csv" ||
       strIncludes mime "yaml" || strIncludes mime "xml" ||
       strIncludes mime "json"

/-- `isImageMime` of `src/utils/files.ts`. -/
def isImageMime (mime : String) : Bool := strStartsWith mime "image/"

/-! ### Base64 / UTF-8 decoding, modelling `atob` + `TextDecoder`

`decodeBase64Text` only matters to the theorems below through being a
fixed, deterministic function (no claim constrains the decoded value);
the decode is the standard forgiving-base64 plus a UTF-8 decode that
replaces malformed sequences. -/

/-- Value of one base64 alphabet character. -/
def base64Val (c : Char) : Option Nat :=
  if 'A' ≤ c ∧ c ≤ 'Z' then some (c.toNat - 65)
  else if 'a' ≤ c ∧ c ≤ 'z' then some (c.toNat - 97 + 26)
  else if '0' ≤ c ∧ c ≤ '9' then some (c.toNat - 48 + 52)
  else if c = '+' then some 62
  else if c = '/' then some 63
  else none

/-- Forgiving-base64: strip up to two trailing `=` when the length is a
multiple of four. -/
def stripB64Padding (l : List Char) : List Char :=
  if l.length % 4 = 0 then
    match l.reverse with
    | '=' :: '=' :: rest => rest.reverse
    | '=' :: rest => rest.reverse
    | _ => l
  else l

/-- Decode a cleaned base64 character sequence into bytes;
`none` on an invalid character or a single leftover character. -/
def base64DecodeChars : List Char → Option (List Nat)
  | [] => some []
  | [_] => none
  | [a, b] => do
    let va ← base64Val a
    let vb ← base64Val b
    some [va * 4 + vb / 16]
  | [a, b, c] => do
    let va ← base64Val a
    let vb ← base64Val b
    let vc ← base64Val c
    some [va * 4 + vb / 16, (vb % 16) * 16 + vc / 4]
  | a :: b :: c :: d :: rest => do
    let va ← base64Val a
    let vb ← base64Val b
    let vc ← base64Val c
    let vd ← base64Val d
    let tail ← base64DecodeChars rest
    some ([va * 4 + vb / 16, (vb % 16) * 16 + vc / 4, (vc % 4) * 64 + vd] ++ tail)

/-- U+FFFD. -/
def replacementChar : Char := Char.ofNat 65533

/-- UTF-8 decode with replacement of malformed sequences
(`TextDecoder().decode`). -/
def utf8Decode : List Nat → List Char
  | [] => []
  | b :: rest =>
    if b < 128 then Char.ofNat b :: utf8Decode rest
    else if 192 ≤ b ∧ b < 224 then
      match rest with
      | b2 :: rest2 =>
        if 128 ≤ b2 ∧ b2 < 192 then
          Char.ofNat ((b - 192) * 64 + (b2 - 128)) :: utf8Decode rest2
        else replacementChar :: utf8Decode (b2 :: rest2)
      | [] => [replacementChar]
    else if 224 ≤ b ∧ b < 240 then
      match rest with
      | b2 :: b3 :: rest3 =>
        if (128 ≤ b2 ∧ b2 < 192) ∧ (128 ≤ b3 ∧ b3 < 192) then
          Char.ofNat ((b - 224) * 4096 + (b2 - 128) * 64 + (b3 - 128)) :: utf8Decode rest3
        else replacementChar :: utf8Decode (b2 :: b3 :: rest3)
      | [_] => [replacementChar, replacementChar]
      | [] => [replacementChar]
    else if 240 ≤ b ∧ b < 248 then
      match rest with
      | b2 :: b3 :: b4 :: rest4 =>
        if (128 ≤ b2 ∧ b2 < 192) ∧ (128 ≤ b3 ∧ b3 < 192) ∧ (128 ≤ b4 ∧ b4 < 192) then
          Char.ofNat ((b - 240) * 262144 + (b2 - 128) * 4096 + (b3 - 128) * 64 + (b4 - 128)) ::
            utf8Decode rest4
        else replacementChar :: utf8Decode (b2 :: b3 :: b4 :: rest4)
      | [_, _] => [replacementChar, replacementChar, replacementChar]
      | [_] => [replacementChar, replacementChar]
      | [] => [replacementChar]
    else replacementChar :: utf8Decode rest
termination_by l => l.length
decreasing_by all_goals (simp [List.length_cons]; try omega)

/-- `decodeBase64Text` of `src/utils/files.ts`: `atob` then UTF-8
decode, failing soft with the sentinel error string. -/
def decodeBase64Text (base64 : String) : String :=
  let cleaned := (base64.data.filter (fun c => !isJsWhitespace c))
  match base64DecodeChars (stripB64Padding cleaned) with
  | some bytes => String.mk (utf8Decode bytes)
  | none => "[Error decoding file content]"

/-! ### Anthropic-style normalizer,
`src/services/llm/providers/anthropic.ts` (`normalizeMessages`) -/

/-- Anthropic wire-format roles. -/
inductive ARole
  | user
  | assistant
deriving DecidableEq, Repr

/-- A content block of an Anthropic message: an inline base64 image
block or a text block. -/
inductive ABlock
  | image (mediaType : String) (data : String)
  | text (content : String)
deriving DecidableEq, Repr

/-- One normalized Anthropic turn (`{ role, content }`). -/
structure ATurn where
  role : ARole
  content : List ABlock
deriving DecidableEq, Repr

/-- `'model'` maps to `assistant`, everything else to `user`. -/
def aRoleOf (r : Role) : ARole :=
  if r = Role.model then ARole.assistant else ARole.user

/-- The content blocks built for one source message inside
`normalizeMessages`: the attachment block (image, decoded text file, or
unsupported-type placeholder), then the text block when
`msg.text?.trim()` is truthy. -/
def blocksOf (msg : Message) : List ABlock :=
  (match msg.attachment with
   | none => []
   | some a =>
     if isImageMime a.mimeType then [ABlock.image a.mimeType a.data]
     else if isTextBasedMime a.mimeType then
       [ABlock.text ("\n--- Attached File: " ++ a.name ++ " ---\n" ++
         decodeBase64Text a.data ++ "\n--- End File ---\n")]
     else [ABlock.text ("[Unsupported file attachment: " ++ a.name ++
       " (" ++ a.mimeType ++ ")]")]) ++
  (if jsTrim msg.text ≠ "" then [ABlock.text msg.text] else [])

/-- Loop state of `normalizeMessages`: accumulated turns, the role of
the turn being built, and its blocks. -/
structure NormAcc where
  normalized : List ATurn
  currentRole : Option ARole
  currentBlocks : List ABlock

/-- Emit the turn being built (the push of `{role: currentRole,
content: currentBlocks}` guarded by `if (currentRole)`). -/
def flushAcc (acc : NormAcc) : List ATurn :=
  match acc.currentRole with
  | some r => [⟨r, acc.currentBlocks⟩]
  | none => []

/-- One iteration of the `for (const msg of allInputs)` loop: skip
empty messages, merge into the current same-role turn, or push the
finished turn and open a new one. -/
def normStep (acc : NormAcc) (msg : Message) : NormAcc :=
  let msgRole := aRoleOf msg.role
  let blocks := blocksOf msg
  if blocks = [] then acc
  else if acc.currentRole = some msgRole then
    { acc with currentBlocks := acc.currentBlocks ++ blocks }
  else
    { normalized := acc.normalized ++ flushAcc acc
      currentRole := some msgRole
      currentBlocks := blocks }

/-- The synthetic trailing turn appended to the history
(`{ id: 'current', role: 'user', text: newMessage, attachment }`). -/
def currentMsg (newMessage : String) (attachment : Option Attachment) : Message :=
  { role := Role.user, text := newMessage, attachment := attachment }

/-- The merged turn list before the leading-turn check: the loop over
`history ++ [current]` followed by the final flush. -/
def mergedTurns (history : List Message) (newMessage : String)
    (attachment : Option Attachment) : List ATurn :=
  let allInputs := history ++ [currentMsg newMessage attachment]
  let acc := allInputs.foldl normStep ⟨[], none, []⟩
  acc.normalized ++ flushAcc acc

/-- `normalizeMessages` of `src/services/llm/providers/anthropic.ts`:
merge, then drop a leading non-`user` turn (`normalized.shift()`). -/
def normalizeMessages (history : List Message) (newMessage : String)
    (attachment : Option Attachment) : List ATurn :=
  match mergedTurns history newMessage attachment with
  | [] => []
  | t :: rest => if t.role ≠ ARole.user then rest else t :: rest

/-- No two adjacent turns share a role. -/
def roleAlternating (l : List ATurn) : Prop :=
  List.Chain' (fun a b => a ≠ b) (l.map ATurn.role)

/-- All blocks of a turn list, in order. -/
def flattenBlocks (l : List ATurn) : List ABlock :=
  l.flatMap ATurn.content

/-! ### Chat-adapter 2xx response handling

Each adapter's handling of the decoded JSON body of a successful
(2xx) HTTP response, as a pure function of the fields the code reads.
`Except.error` models `throw`; `Except.ok` models a normal return. -/

/-- JS truthiness of an optional string (`undefined`, `null` and `""`
are falsy). -/
def optTruthy (o : Option String) : Bool :=
  match o with
  | some s => !s.isEmpty
  | none => false

/-- Google adapter (`google.ts`): `result.text` truthy is returned,
otherwise `throw new Error("No text returned from Gemini")`. -/
def googleParse2xx (resultText : Option String) : Except String String :=
  if optTruthy resultText then Except.ok (resultText.getD "")
  else Except.error "No text returned from Gemini"

/-- A block of the Anthropic response `content` array. -/
structure AnthropicRespBlock where
  type : String
  text : Option String
deriving DecidableEq, Repr

/-- Anthropic adapter (`anthropic.ts`): find the first `type === 'text'`
block; when `textBlock?.text` is falsy it RETURNS the placeholder
string `"No text response received from Claude."` — it does not throw. -/
def anthropicParse2xx (content : Option (List AnthropicRespBlock)) : Except String String :=
  let textBlock := (content.getD []).find? (fun c => c.type = "text")
  if optTruthy (textBlock.bind AnthropicRespBlock.text) then
    Except.ok ((textBlock.bind AnthropicRespBlock.text).getD "")
  else Except.ok "No text response received from Claude."

/-- Raw `usage` object of an OpenAI-compatible response. -/
structure OpenAIUsageRaw where
  prompt_tokens : Option Nat
  completion_tokens : Option Nat
  total_tokens : Option Nat
deriving DecidableEq, Repr

/-- `GenerateResponse` of `src/services/llm/types.ts`. -/
structure GenerateResponse where
  text : String
  usage : Option TokenUsage := none
deriving DecidableEq, Repr

/-- OpenAI-compatible adapter (`openai.ts`): when
`data.choices?.[0]?.message?.content` is falsy it RETURNS
`{ text: "No response content received." }`; otherwise the content and
the usage mapped field-by-field (`?? 0` defaults). -/
def openaiParse2xx (content : Option String) (usage : Option OpenAIUsageRaw) :
    Except String GenerateResponse :=
  if optTruthy content then
    Except.ok
      { text := content.getD ""
        usage := usage.map (fun u =>
          { inputTokens := u.prompt_tokens.getD 0
            outputTokens := u.completion_tokens.getD 0
            totalTokens := u.total_tokens.getD 0 }) }
  else Except.ok { text := "No response content received.", usage := none }

/-! ### Provider factories -/

/-- The three chat-provider singletons of `src/services/llm/factory.ts`
(`xai` and the default both reuse the OpenAI-compatible instance). -/
inductive ChatProvider
  | google
  | anthropic
  | openai
deriving DecidableEq, Repr

/-- `getProvider` of `src/services/llm/factory.ts`: a total switch with
an OpenAI-compatible fallback — it never throws. -/
def getProvider (providerName : String) : ChatProvider :=
  if providerName = "google" then ChatProvider.google
  else if providerName = "anthropic" then ChatProvider.anthropic
  else if providerName = "openai" then ChatProvider.openai
  else if providerName = "xai" then ChatProvider.openai
  else ChatProvider.openai

/-- The four image-provider singletons of
`src/services/llm/image/index.ts`. -/
inductive ImageProvider
  | google
  | openai
  | xai
  | openrouter
deriving DecidableEq, Repr

/-- `getImageProvider`: a switch whose default branch throws
`Unknown image provider: <name>`. -/
def getImageProvider (providerName : String) : Except String ImageProvider :=
  if providerName = "google" then Except.ok ImageProvider.google
  else if providerName = "openai" then Except.ok ImageProvider.openai
  else if providerName = "xai" then Except.ok ImageProvider.xai
  else if providerName = "openrouter" then Except.ok ImageProvider.openrouter
  else Except.error ("Unknown image provider: " ++ providerName)

/-! ### xAI image adapter, `xai.ts` -/

/-- The prompt actually transmitted by `XAIImageProvider.generateImage`
(text-to-image path): `options.prompt.length > 1000 ?
options.prompt.substring(0, 1000) : options.prompt`.  Note the code's
own comment documents the vendor limit as 1024 characters while the
cut happens at 1000. -/
def xaiTruncatedPrompt (prompt : String) : String :=
  if prompt.length > 1000 then String.mk (prompt.data.take 1000) else prompt

/-- The claim's reading of the truncation, stated from the spec's
words for comparison: a character cut at the DOCUMENTED maximum — the
1024-character vendor limit named in the adapter's comment. -/
def xaiSpecTruncatedPrompt (prompt : String) : String :=
  if prompt.length > 1024 then String.mk (prompt.data.take 1024) else prompt

/-! ### OpenRouter image adapter, `src/services/llm/image/openrouter.ts`

The three regex alternatives of strategy 1 are modelled as first-match
scanners with JavaScript semantics (`.` excludes line terminators,
lazy quantifiers take the shortest extension, earlier start positions
win with backtracking). -/

/-- A JS regex line terminator (which `.` does not match). -/
def isLineTerm (c : Char) : Bool :=
  c = Char.ofNat 10 || c = Char.ofNat 13 || c = Char.ofNat 8232 || c = Char.ofNat 8233

/-- The `\s` character class (common members). -/
def isJsRegexSpace (c : Char) : Bool :=
  isJsWhitespace c || c = Char.ofNat 160 || c = Char.ofNat 65279 ||
  c = Char.ofNat 8232 || c = Char.ofNat 8233

/-- The lazy `(.*?)\)` tail: capture up to the first `)`, failing on a
line terminator or the end of input. -/
def lazyCaptureToParen : List Char → Option (List Char)
  | [] => none
  | c :: rest =>
    if c = ')' then some []
    else if isLineTerm c then none
    else (lazyCaptureToParen rest).map (fun cap => c :: cap)

/-- After `![`: the lazy `.*?\]\(` search for the next `](`, trying
later occurrences when the capture after one fails (regex
backtracking), and giving up at a line terminator. -/
def p1AfterBracket : List Char → Option (List Char)
  | [] => none
  | c :: rest =>
    if c = ']' ∧ rest.head? = some '(' then
      match lazyCaptureToParen rest.tail with
      | some cap => some cap
      | none => p1AfterBracket rest
    else if isLineTerm c then none
    else p1AfterBracket rest

/-- First match of `/!\[.*?\]\((.*?)\)/` (capture group 1): the
markdown image link pattern. -/
def scanMarkdownImage : List Char → Option (List Char)
  | [] => none
  | c :: rest =>
    (if c = '!' ∧ rest.head? = some '[' then p1AfterBracket rest.tail else none).orElse
      (fun _ => scanMarkdownImage rest)

/-- Consume `https?:\/\/` (greedy optional `s`). -/
def stripHttpProto (l : List Char) : Option (List Char × List Char) :=
  if startsWithChars "https://".data l then some ("https://".data, l.drop 8)
  else if startsWithChars "http://".data l then some ("http://".data, l.drop 7)
  else none

/-- First match of `/\((https?:\/\/.*?)\)/` (capture group 1). -/
def scanParenUrl : List Char → Option (List Char)
  | [] => none
  | c :: rest =>
    (if c = '(' then
       match stripHttpProto rest with
       | some (proto, rem) => (lazyCaptureToParen rem).map (fun cap => proto ++ cap)
       | none => none
     else none).orElse
      (fun _ => scanParenUrl rest)

/-- First match of `/(https?:\/\/[^\s)]+)/` (capture group 1). -/
def scanBareUrl : List Char → Option (List Char)
  | [] => none
  | c :: rest =>
    (match stripHttpProto (c :: rest) with
     | some (proto, rem) =>
       let body := rem.takeWhile (fun d => !isJsRegexSpace d && d ≠ ')')
       if body = [] then none else some (proto ++ body)
     | none => none).orElse
      (fun _ => scanBareUrl rest)

/-- `content.match(P1) || content.match(P2) || content.match(P3)`,
projected to capture group 1: the strategy-1 URL extraction from the
chat text content. -/
def contentCapture (content : String) : Option String :=
  (((scanMarkdownImage content.data).orElse
      (fun _ => scanParenUrl content.data)).orElse
      (fun _ => scanBareUrl content.data)).map String.mk

/-- `images[k]` entry of an OpenRouter chat message
(`image_url_url` models `images[k].image_url?.url`). -/
structure ORImageEntry where
  image_url_url : Option String := none
  url : Option String := none
deriving DecidableEq, Repr

/-- `choices[k].message` of an OpenRouter chat response. -/
structure ORMessage where
  content : Option String := none
  images : List ORImageEntry := []
deriving DecidableEq, Repr

/-- `choices[k]` of an OpenRouter chat response. -/
structure ORChoice where
  message : ORMessage
deriving DecidableEq, Repr

/-- `data[k]` of an OpenRouter chat response root. -/
structure ORDataItem where
  url : Option String := none
  b64_json : Option String := none
deriving DecidableEq, Repr

/-- The fields of the decoded OpenRouter 2xx JSON body that
`generateImage` reads. -/
structure ORResponse where
  choices : List ORChoice := []
  data : List ORDataItem := []
deriving DecidableEq, Repr

/-- `data.choices?.[0]?.message?.content || ""`. -/
def orContent (resp : ORResponse) : String :=
  (resp.choices.head?.bind (fun c => c.message.content)).getD ""

/-- `data.choices?.[0]?.message?.images?.[0]?.image_url?.url`. -/
def orNestedImageUrl (resp : ORResponse) : Option String :=
  resp.choices.head?.bind (fun c => c.message.images.head?.bind ORImageEntry.image_url_url)

/-- `data.choices?.[0]?.message?.images?.[0]?.url`. -/
def orNestedUrl (resp : ORResponse) : Option String :=
  resp.choices.head?.bind (fun c => c.message.images.head?.bind ORImageEntry.url)

/-- `data.data?.[0]?.url`. -/
def orDataUrl (resp : ORResponse) : Option String :=
  resp.data.head?.bind ORDataItem.url

/-- `data.data?.[0]?.b64_json`. -/
def orDataB64 (resp : ORResponse) : Option String :=
  resp.data.head?.bind ORDataItem.b64_json

/-- `metadata` of an `ImageResult` (`src/services/llm/image/types.ts`;
`seed` is never set by this adapter). -/
structure ImageMetadata where
  width : Nat
  height : Nat
  revisedPrompt : Option String := none
deriving DecidableEq, Repr

/-- `ImageResult` of `src/services/llm/image/types.ts`. -/
structure ImageResult where
  url : String
  mimeType : String
  metadata : Option ImageMetadata := none
deriving DecidableEq, Repr

/-- The 2xx response handling of
`OpenRouterImageProvider.generateImage`: strategy 1 (URL extracted
from the text content — markdown image link, parenthesized URL, or
bare URL — accepted when the capture is truthy), then strategy 2 (the
nested `images[0]` reference, `image_url.url` before `url`), then
strategy 3 (root `data[0]` with `url` or `b64_json`), else the
`No image URL found` error. -/
def parseOpenRouterImage (resp : ORResponse) : Except String (List ImageResult) :=
  let content := orContent resp
  if optTruthy (contentCapture content) then
    Except.ok [{ url := (contentCapture content).getD ""
                 mimeType := "image/png"
                 metadata := some { width := 1024, height := 1024, revisedPrompt := some content } }]
  else if optTruthy (orNestedImageUrl resp) then
    Except.ok [{ url := (orNestedImageUrl resp).getD ""
                 mimeType := "image/png"
                 metadata := some { width := 1024, height := 1024 } }]
  else if optTruthy (orNestedUrl resp) then
    Except.ok [{ url := (orNestedUrl resp).getD ""
                 mimeType := "image/png"
                 metadata := some { width := 1024, height := 1024 } }]
  else if optTruthy (orDataUrl resp) || optTruthy (orDataB64 resp) then
    Except.ok [{ url := if optTruthy (orDataB64 resp) then
                   "data:image/png;base64," ++ (orDataB64 resp).getD ""
                 else (orDataUrl resp).getD ""
                 mimeType := "image/png"
                 metadata := some { width := 1024, height := 1024 } }]
  else
    Except.error ("No image URL found in OpenRouter response. Content: " ++
      String.mk (content.data.take 100))

/-! ### Model configuration and thread state
(`src/types.ts`, `useChatState.ts`) -/

/-- A model capability (`m.capabilities.includes('text')` in
`App.tsx`; the field is read there even though the `ModelConfig`
declaration in `src/types.ts` omits it). -/
inductive Capability
  | text
  | image
  | video
deriving DecidableEq, Repr

/-- `ModelConfig` of `src/types.ts`, with the `capabilities` field the
orchestrator reads.  `provider` is the provider-family tag string. -/
structure ModelConfig where
  id : String
  name : String
  provider : String
  enabled : Bool
  capabilities : List Capability
  baseUrl : Option String := none
  apiKey : Option String := none
deriving DecidableEq, Repr

/-- `Thread` of `src/types.ts`. -/
structure Thread where
  modelId : String
  messages : List Message
  isTyping : Bool
  error : Option String := none
  totalTokens : Nat
deriving DecidableEq, Repr

/-- The settings fields the orchestrator reads (`AppSettings`). -/
structure AppSettings where
  systemPrompt : String
  comparePromptTemplate : String
deriving DecidableEq, Repr

/-- `Record<string, Thread>` (a key may be absent). -/
def Threads : Type := String → Option Thread

/-- The lazily-created empty thread
(`{ modelId, messages: [], isTyping: false, totalTokens: 0 }`). -/
def defaultThread (modelId : String) : Thread :=
  { modelId := modelId, messages := [], isTyping := false, error := none, totalTokens := 0 }

/-- The record with no threads. -/
def emptyThreads : Threads := fun _ => none

/-- `prev[modelId] || defaultThread` — the read `updateThread`
performs before applying its update. -/
def lookupThread (ts : Threads) (modelId : String) : Thread :=
  (ts modelId).getD (defaultThread modelId)

/-- `updateThread` of `useChatState.ts`: replace the `modelId` entry by
the update applied to the current (or lazily created) thread. -/
def updateThread (ts : Threads) (modelId : String) (f : Thread → Thread) : Threads :=
  fun x => if x = modelId then some (f (lookupThread ts modelId)) else ts x

/-- `addMessage` of `useChatState.ts`: append one message (usage kept
only on model-authored messages) and accumulate
`usage?.totalTokens ?? 0` into the thread's `totalTokens`. -/
def addMessage (ts : Threads) (modelId : String) (text : String) (role : Role)
    (attach : Option Attachment := none) (usage : Option TokenUsage := none) : Threads :=
  updateThread ts modelId (fun t =>
    { t with
      messages := t.messages ++
        [{ role := role, text := text, attachment := attach
           usage := if role = Role.model then usage else none }]
      totalTokens := t.totalTokens + ((usage.map TokenUsage.totalTokens).getD 0) })

/-! ### Orchestrator, `App.tsx` -/

/-- `models.filter(m => m.enabled && m.capabilities.includes('text'))`. -/
def activeTextModels (models : List ModelConfig) : List ModelConfig :=
  models.filter (fun m => m.enabled && m.capabilities.contains Capability.text)

/-- The synchronous prefix of `sendMessageToModel`:
`updateThread(modelId, () => ({ isTyping: true, error: undefined }))`. -/
def sendDispatch (ts : Threads) (modelId : String) : Threads :=
  updateThread ts modelId (fun t => { t with isTyping := true, error := none })

/-- How one model's call settles: the adapter resolved with text and
optional usage, or rejected (threw) with an error message. -/
inductive SendOutcome
  | ok (text : String) (usage : Option TokenUsage)
  | failure (message : String)
deriving DecidableEq, Repr

/-- The completion of `sendMessageToModel` for one model: on success
`addMessage(model.id, response.text, 'model', undefined, response.usage)`;
on failure `updateThread(... ({ error: err.message }))`; in both cases
the `finally` block clears `isTyping`. -/
def sendSettle (ts : Threads) (modelId : String) (outcome : SendOutcome) : Threads :=
  match outcome with
  | SendOutcome.ok text usage =>
    updateThread (addMessage ts modelId text Role.model none usage) modelId
      (fun t => { t with isTyping := false })
  | SendOutcome.failure e =>
    updateThread (updateThread ts modelId (fun t => { t with error := some e })) modelId
      (fun t => { t with isTyping := false })

/-- One iteration of the `handleSend` fan-out loop for one model: the
`addMessage(m.id, txt, 'user', att)` pre-dispatch append followed by
the synchronous dispatch prefix of `sendMessageToModel`. -/
def sendStep (txt : String) (att : Option Attachment) (acc : Threads)
    (m : ModelConfig) : Threads :=
  sendDispatch (addMessage acc m.id txt Role.user att none) m.id

/-- The synchronous phase of `handleSend`: the guard
`(!input.trim() && !attachment) || activeTextModels.length === 0`,
then `sendStep` per active model. -/
def handleSendDispatch (ts : Threads) (models : List ModelConfig) (txt : String)
    (att : Option Attachment) : Threads :=
  if (jsTrim txt = "" ∧ att = none) ∨ activeTextModels models = [] then ts
  else (activeTextModels models).foldl (sendStep txt att) ts

/-! ### JS `String.prototype.replace` with a string pattern

`settings.comparePromptTemplate.replace('{{OTHER_RESPONSES}}', ...)`
replaces the FIRST occurrence only, and interprets `$$`, `$&`,
`$`+backquote and `$`+quote in the replacement string
(ECMA-262 GetSubstitution). -/

/-- `$` (36), `&` (38), backquote (96), quote (39). -/
def dollarChar : Char := Char.ofNat 36

/-- See `dollarChar`. -/
def ampChar : Char := Char.ofNat 38

/-- See `dollarChar`. -/
def backquoteChar : Char := Char.ofNat 96

/-- See `dollarChar`. -/
def quoteChar : Char := Char.ofNat 39

/-- Split a list around the first occurrence of a (non-empty) pattern:
`some (before, after)` when the pattern occurs. -/
def findFirstSplit (l pat : List Char) : Option (List Char × List Char) :=
  if startsWithChars pat l then some ([], l.drop pat.length)
  else
    match l with
    | [] => none
    | c :: rest => (findFirstSplit rest pat).map (fun p => (c :: p.1, p.2))

/-- ECMA-262 GetSubstitution for a string search value (no capture
groups): expand `$$`, `$&` (the match), `$`+backquote (the part before
the match) and `$`+quote (the part after); leave any other `$`
sequence literal. -/
def getSubstitution : List Char → List Char → List Char → List Char → List Char
  | [], _, _, _ => []
  | [c], _, _, _ => [c]
  | c :: d :: rest, m, b, a =>
    if c = dollarChar then
      if d = dollarChar then dollarChar :: getSubstitution rest m b a
      else if d = ampChar then m ++ getSubstitution rest m b a
      else if d = backquoteChar then b ++ getSubstitution rest m b a
      else if d = quoteChar then a ++ getSubstitution rest m b a
      else c :: getSubstitution (d :: rest) m b a
    else c :: getSubstitution (d :: rest) m b a

/-- JS `s.replace(pat, rep)` with string `pat` (assumed non-empty; the
orchestrator always passes the fixed placeholder literal): first
occurrence only, `$`-sequences of `rep` expanded. -/
def jsReplaceFirst (s pat rep : String) : String :=
  match findFirstSplit s.data pat.data with
  | none => s
  | some (before, after) =>
    String.mk (before ++ getSubstitution rep.data pat.data before after ++ after)

/-- Plain first-occurrence substitution — the claim's reading of
"the template with the placeholder replaced": the replacement text is
inserted verbatim. -/
def plainReplaceFirst (s pat rep : String) : String :=
  match findFirstSplit s.data pat.data with
  | none => s
  | some (before, after) => String.mk (before ++ rep.data ++ after)

/-! ### Global compare, `App.tsx` (`handleGlobalCompare`) -/

/-- The compare placeholder `OTHER_RESPONSES` in double braces. -/
def comparePlaceholder : String := "\x7b\x7bOTHER_RESPONSES\x7d\x7d"

/-- `<model_response name="NAME">TEXT</model_response>`. -/
def wrapModelResponse (name text : String) : String :=
  "<model_response name=\"" ++ name ++ "\">" ++ text ++ "</model_response>"

/-- `msgs[msgs.length - 1]` of a model's thread. -/
def lastMessageOf (ts : Threads) (modelId : String) : Option Message :=
  (((ts modelId).map Thread.messages).getD []).getLast?

/-- The `others` array for one compare target: every other active
model whose thread's last message is model-authored, wrapped in the
named tag (`.filter(Boolean)` drops the `null`s). -/
def othersFor (active : List ModelConfig) (ts : Threads) (targetId : String) : List String :=
  (active.filter (fun m => m.id ≠ targetId)).filterMap (fun m =>
    match lastMessageOf ts m.id with
    | some last =>
      if last.role = Role.model then some (wrapModelResponse m.name last.text) else none
    | none => none)

/-- JS `Array.prototype.join`. -/
def joinWith (sep : String) : List String → String
  | [] => ""
  | [x] => x
  | x :: rest => x ++ sep ++ joinWith sep rest

/-- The compare prompt: `settings.comparePromptTemplate.replace(` the
placeholder `, others.join('\n\n'))`. -/
def comparePromptFor (settings : AppSettings) (others : List String) : String :=
  jsReplaceFirst settings.comparePromptTemplate comparePlaceholder
    (joinWith "\n\n" others)

/-- One iteration of the `handleGlobalCompare` loop for one target
model: skip when `others` is empty (`if (others.length === 0) return`),
else append the compare prompt as a user message and dispatch the
send. -/
def compareStep (active : List ModelConfig) (settings : AppSettings) (snapshot : Threads)
    (acc : Threads) (target : ModelConfig) : Threads :=
  let others := othersFor active snapshot target.id
  if others = [] then acc
  else
    sendDispatch
      (addMessage acc target.id (comparePromptFor settings others) Role.user) target.id

/-- The synchronous phase of `handleGlobalCompare`: with fewer than two
active models nothing happens; otherwise `compareStep` runs per
target, with all `others` reads going against the captured `threads`
snapshot (the `threads[m.id]` closure value), not the evolving state. -/
def handleGlobalCompare (models : List ModelConfig) (settings : AppSettings)
    (ts : Threads) : Threads :=
  let active := activeTextModels models
  if active.length < 2 then ts
  else active.foldl (compareStep active settings ts) ts

/-! ### Proof infrastructure (no new source behaviour) -/

/-- Decidable equality for `Except` results, so that concrete adapter
outcomes can be checked by `decide`. -/
instance instDecEqExcept {ε α : Type} [DecidableEq ε] [DecidableEq α] :
    DecidableEq (Except ε α) := fun x y =>
  match x, y with
  | Except.ok a, Except.ok b =>
    if h : a = b then isTrue (by rw [h]) else isFalse (fun hh => h (Except.ok.inj hh))
  | Except.error a, Except.error b =>
    if h : a = b then isTrue (by rw [h]) else isFalse (fun hh => h (Except.error.inj hh))
  | Except.ok _, Except.error _ => isFalse (fun hh => Except.noConfusion hh)
  | Except.error _, Except.ok _ => isFalse (fun hh => Except.noConfusion hh)

/-- The turns a `NormAcc` denotes: the flushed accumulated turns. -/
def finishAcc (acc : NormAcc) : List ATurn :=
  acc.normalized ++ flushAcc acc

/-- Loop invariant of `normalizeMessages`: the denoted turn list
alternates, and before the first non-empty message nothing has been
pushed. -/
def normInv (acc : NormAcc) : Prop :=
  roleAlternating (finishAcc acc) ∧ (acc.currentRole = none → acc.normalized = [])

/-- One appended message as the token accountant sees it: the
arguments of one `addMessage` call. -/
structure ChatEvent where
  text : String
  role : Role
  attachment : Option Attachment := none
  usage : Option TokenUsage := none
deriving DecidableEq, Repr

/-- The usage total an event contributes (`usage?.totalTokens ?? 0`). -/
def usageTotal (ev : ChatEvent) : Nat :=
  (ev.usage.map TokenUsage.totalTokens).getD 0

/-- Fold a list of `addMessage` calls for one model over the state. -/
def applyChatEvents (ts : Threads) (modelId : String) (events : List ChatEvent) : Threads :=
  events.foldl (fun acc ev => addMessage acc modelId ev.text ev.role ev.attachment ev.usage) ts

/-- Fixture: active text model `a`. -/
def c5ModelA : ModelConfig :=
  { id := "a", name := "A", provider := "openai", enabled := true
    capabilities := [Capability.text] }

/-- Fixture: active text model `b`. -/
def c5ModelB : ModelConfig :=
  { id := "b", name := "B", provider := "google", enabled := true
    capabilities := [Capability.text] }

/-- Fixture: the two-character model response `$` followed by a quote
(the JS replacement pattern that expands to the part of the template
after the match). -/
def c5DollarText : String := String.mk [dollarChar, quoteChar]

/-- Fixture: a compare template with text on both sides of the
placeholder. -/
def c5Template : String := "X" ++ comparePlaceholder ++ "Y"

/-- Fixture settings for the compare counterexample. -/
def c5Settings : AppSettings :=
  { systemPrompt := "", comparePromptTemplate := c5Template }

/-- Fixture threads: both models' threads end in a model-authored
message; model `b`'s response is `c5DollarText`. -/
def c5Threads : Threads := fun id =>
  if id = "a" then
    some { modelId := "a", messages := [{ role := Role.model, text := "ra" }]
           isTyping := false, totalTokens := 0 }
  else if id = "b" then
    some { modelId := "b", messages := [{ role := Role.model, text := c5DollarText }]
           isTyping := false, totalTokens := 0 }
  else none

/-- Fixture: an OpenRouter response whose text content holds a bare
URL (no markdown image link) while a nested `images[0].image_url.url`
reference is also present. -/
def c7Resp : ORResponse :=
  { choices := [{ message :=
      { content := some "see https://img.example/pic.png"
        images := [{ image_url_url := some "https://nested.example/n.png", url := none }] } }]
    data := [] }

/-- Fixture: an OpenRouter response matching only the nested-field
strategy. -/
def w7Resp : ORResponse :=
  { choices := [{ message :=
      { content := some "no link here"
        images := [{ image_url_url := some "https://n.example/x.png", url := none }] } }]
    data := [] }

/-- Fixture settings for the compare witness (dollar-free data). -/
def w5Settings : AppSettings :=
  { systemPrompt := "", comparePromptTemplate := "Compare: " ++ comparePlaceholder }

/-- Fixture threads for the compare witness. -/
def w5Threads : Threads := fun id =>
  if id = "a" then
    some { modelId := "a", messages := [{ role := Role.model, text := "alpha" }]
           isTyping := false, totalTokens := 0 }
  else if id = "b" then
    some { modelId := "b", messages := [{ role := Role.model, text := "beta" }]
           isTyping := false, totalTokens := 0 }
  else none

/-! ## Theorems -/

theorem lookupThread_updateThread_self (ts : Threads) (id : String) (f : Thread → Thread) :
    lookupThread (updateThread ts id f) id = f (lookupThread ts id) := by
  simp [lookupThread, updateThread]

theorem lookupThread_updateThread_ne (ts : Threads) (id id2 : String) (f : Thread → Thread)
    (h : id2 ≠ id) : lookupThread (updateThread ts id f) id2 = lookupThread ts id2 := by
  simp [lookupThread, updateThread, h]

/-- **C9.** `detectMimeType` returns the caller's hint whenever it is
non-empty and not `application/octet-stream`; otherwise it falls back
to the extension table, defaulting unknown-but-plausible-text
extensions to `text/plain` and truly unknown ones to
`application/octet-stream`. -/
theorem detectMimeType_spec (filename hint : String) :
    (hint ≠ "" → hint ≠ "application/octet-stream" → detectMimeType filename hint = hint) ∧
    ((hint = "" ∨ hint = "application/octet-stream") →
      (∀ ext m, extOf filename = some ext → extensionToMime ext = some m →
        detectMimeType filename hint = m) ∧
      (∀ ext, extOf filename = some ext → extensionToMime ext = none →
        isPlausibleTextExt ext = true → detectMimeType filename hint = "text/plain") ∧
      (∀ ext, extOf filename = some ext → extensionToMime ext = none →
        isPlausibleTextExt ext = false →
        detectMimeType filename hint = "application/octet-stream")) := by
  constructor
  · intro h1 h2
    simp [detectMimeType, h1, h2]
  · intro hg
    have hcond : ¬(hint ≠ "" ∧ hint ≠ "application/octet-stream") := by
      rcases hg with h | h <;> simp [h]
    refine ⟨?_, ?_, ?_⟩
    · intro ext m hext hmime
      simp [detectMimeType, hcond, hext, hmime]
    · intro ext hext hmime hplaus
      simp [detectMimeType, hcond, hext, hmime, hplaus]
    · intro ext hext hmime hplaus
      simp [detectMimeType, hcond, hext, hmime, hplaus]

/-- Witness for C9: a table hit, a plausible-text unknown extension, a
truly unknown extension, and a trusted browser hint. -/
theorem detectMimeType_spec_witness :
    detectMimeType "README.md" "" = "text/markdown" ∧
    detectMimeType "notes.xyz" "" = "text/plain" ∧
    detectMimeType "archive.blob2" "" = "application/octet-stream" ∧
    detectMimeType "data.bin" "application/json" = "application/json" :=
  ⟨((detectMimeType_spec "README.md" "").2 (Or.inl rfl)).1 ".md" "text/markdown"
      (by decide) (by decide),
   (((detectMimeType_spec "notes.xyz" "").2 (Or.inl rfl)).2.1 ".xyz"
      (by decide) (by decide) (by decide)),
   (((detectMimeType_spec "archive.blob2" "").2 (Or.inl rfl)).2.2 ".blob2"
      (by decide) (by decide) (by decide)),
   ((detectMimeType_spec "data.bin" "application/json").1 (by decide) (by decide))⟩

/-- **C10.** The chat-provider factory `getProvider` is total over
arbitrary provider-family strings — the four known tags map to their
providers, anything else falls back to the OpenAI-compatible provider
with no throw — while the image factory `getImageProvider` throws
(`Except.error`) for tags outside its known set. -/
theorem provider_factory_totality :
    getProvider "google" = ChatProvider.google ∧
    getProvider "anthropic" = ChatProvider.anthropic ∧
    getProvider "openai" = ChatProvider.openai ∧
    getProvider "xai" = ChatProvider.openai ∧
    (∀ s, s ≠ "google" → s ≠ "anthropic" → s ≠ "openai" → s ≠ "xai" →
      getProvider s = ChatProvider.openai) ∧
    getImageProvider "google" = Except.ok ImageProvider.google ∧
    getImageProvider "openai" = Except.ok ImageProvider.openai ∧
    getImageProvider "xai" = Except.ok ImageProvider.xai ∧
    getImageProvider "openrouter" = Except.ok ImageProvider.openrouter ∧
    (∀ s, s ≠ "google" → s ≠ "openai" → s ≠ "xai" → s ≠ "openrouter" →
      getImageProvider s = Except.error ("Unknown image provider: " ++ s)) := by
  refine ⟨by decide, by decide, by decide, by decide, ?_,
          by decide, by decide, by decide, by decide, ?_⟩
  · intro s h1 h2 h3 h4
    simp [getProvider, h1, h2, h3, h4]
  · intro s h1 h2 h3 h4
    simp [getImageProvider, h1, h2, h3, h4]

/-- Witness for C10 at an unknown provider tag. -/
theorem provider_factory_totality_witness :
    getProvider "mistral" = ChatProvider.openai ∧
    getImageProvider "mistral" = Except.error ("Unknown image provider: " ++ "mistral") :=
  ⟨provider_factory_totality.2.2.2.2.1 "mistral" (by decide) (by decide) (by decide) (by decide),
   provider_factory_totality.2.2.2.2.2.2.2.2.2 "mistral"
     (by decide) (by decide) (by decide) (by decide)⟩

/-- Counterexample to **C8** as stated: the adapter cuts at 1000
characters, not at the 1024-character vendor maximum its own comment
documents; a 1500-character prompt is transmitted with 1000
characters, while a cut "at the documented maximum" would keep 1024. -/
theorem xai_truncation_at_1000_not_1024 :
    (xaiTruncatedPrompt (String.mk (List.replicate 1500 'a'))).length = 1000 ∧
    (xaiSpecTruncatedPrompt (String.mk (List.replicate 1500 'a'))).length = 1024 ∧
    xaiTruncatedPrompt (String.mk (List.replicate 1500 'a')) ≠
      xaiSpecTruncatedPrompt (String.mk (List.replicate 1500 'a')) := by
  refine ⟨by decide, by decide, ?_⟩
  intro h
  have h2 := congrArg String.length h
  rw [show (xaiTruncatedPrompt (String.mk (List.replicate 1500 'a'))).length = 1000 from by decide,
      show (xaiSpecTruncatedPrompt (String.mk (List.replicate 1500 'a'))).length = 1024 from by decide] at h2
  exact absurd h2 (by decide)

/-- **C8 (amended).** The xAI image adapter transmits the prompt
unchanged when it has at most 1000 characters and otherwise transmits
exactly the first 1000 characters — a deterministic simple character
cut at 1000, below the 1024-character limit the adapter's comment
documents; the adapter truncates rather than failing. -/
theorem xai_truncation (p : String) :
    (p.length ≤ 1000 → xaiTruncatedPrompt p = p) ∧
    (1000 < p.length →
      xaiTruncatedPrompt p = String.mk (p.data.take 1000) ∧
      (xaiTruncatedPrompt p).length = 1000) := by
  constructor
  · intro h
    simp only [xaiTruncatedPrompt, gt_iff_lt]
    rw [if_neg (by omega)]
  · intro h
    have hd : p.data.length = p.length := rfl
    constructor
    · simp only [xaiTruncatedPrompt, gt_iff_lt]
      rw [if_pos (by omega)]
    · simp only [xaiTruncatedPrompt, gt_iff_lt]
      rw [if_pos (by omega)]
      show (p.data.take 1000).length = 1000
      rw [List.length_take]
      omega

/-- Witness for C8 at a 1500-character prompt (the spec's fixture). -/
theorem xai_truncation_witness :
    1000 < (String.mk (List.replicate 1500 'a')).length ∧
    (xaiTruncatedPrompt (String.mk (List.replicate 1500 'a'))).length = 1000 :=
  ⟨by decide, ((xai_truncation (String.mk (List.replicate 1500 'a'))).2 (by decide)).2⟩

/-- Counterexample to **C2** as stated: on a 2xx body with no usable
text the Anthropic adapter returns the placeholder success
`"No text response received from Claude."` and the OpenAI-compatible
adapter returns `{ text: "No response content received." }` — normal
returns, not errors. -/
theorem empty2xx_placeholder_success :
    anthropicParse2xx (some []) = Except.ok "No text response received from Claude." ∧
    (anthropicParse2xx (some [])).isOk = true ∧
    openaiParse2xx none none =
      Except.ok { text := "No response content received.", usage := none } ∧
    (openaiParse2xx none none).isOk = true := by
  refine ⟨by decide, by decide, ?_, ?_⟩ <;> rfl

/-- **C2 (amended).** On a 2xx response with no usable text only the
Google adapter fails (`No text returned from Gemini`); the Anthropic
and OpenAI-compatible adapters instead return fixed placeholder
successes.  With usable text every adapter returns it. -/
theorem empty2xx_response_handling :
    (∀ t, optTruthy t = false →
      googleParse2xx t = Except.error "No text returned from Gemini") ∧
    (∀ t, optTruthy t = true → googleParse2xx t = Except.ok (t.getD "")) ∧
    (∀ content, optTruthy (((content.getD []).find? (fun c => c.type = "text")).bind
        AnthropicRespBlock.text) = false →
      anthropicParse2xx content = Except.ok "No text response received from Claude.") ∧
    (∀ content usage, optTruthy content = false →
      openaiParse2xx content usage =
        Except.ok { text := "No response content received.", usage := none }) := by
  refine ⟨?_, ?_, ?_, ?_⟩
  · intro t h
    simp [googleParse2xx, h]
  · intro t h
    simp [googleParse2xx, h]
  · intro content h
    simp [anthropicParse2xx, h]
  · intro content usage h
    simp [openaiParse2xx, h]

/-- Witness for C2 on concrete empty bodies. -/
theorem empty2xx_response_handling_witness :
    googleParse2xx none = Except.error "No text returned from Gemini" ∧
    googleParse2xx (some "") = Except.error "No text returned from Gemini" ∧
    anthropicParse2xx none = Except.ok "No text response received from Claude." ∧
    googleParse2xx (some "hi") = Except.ok "hi" :=
  ⟨empty2xx_response_handling.1 none (by decide),
   empty2xx_response_handling.1 (some "") (by decide),
   empty2xx_response_handling.2.2.1 none (by decide),
   empty2xx_response_handling.2.1 (some "hi") (by decide)⟩

theorem messages_addMessage_self (ts : Threads) (id txt : String) (role : Role)
    (att : Option Attachment) (usage : Option TokenUsage) :
    (lookupThread (addMessage ts id txt role att usage) id).messages =
      (lookupThread ts id).messages ++
        [{ role := role, text := txt, attachment := att
           usage := if role = Role.model then usage else none }] := by
  simp [addMessage, lookupThread_updateThread_self]

theorem totalTokens_addMessage_self (ts : Threads) (id txt : String) (role : Role)
    (att : Option Attachment) (usage : Option TokenUsage) :
    (lookupThread (addMessage ts id txt role att usage) id).totalTokens =
      (lookupThread ts id).totalTokens + (usage.map TokenUsage.totalTokens).getD 0 := by
  simp [addMessage, lookupThread_updateThread_self]

theorem lookupThread_addMessage_ne (ts : Threads) (id id2 txt : String) (role : Role)
    (att : Option Attachment) (usage : Option TokenUsage) (h : id2 ≠ id) :
    lookupThread (addMessage ts id txt role att usage) id2 = lookupThread ts id2 := by
  simp [addMessage, lookupThread_updateThread_ne _ _ _ _ h]

theorem lookupThread_sendDispatch_self (ts : Threads) (id : String) :
    lookupThread (sendDispatch ts id) id =
      { lookupThread ts id with isTyping := true, error := none } := by
  simp [sendDispatch, lookupThread_updateThread_self]

theorem lookupThread_sendDispatch_ne (ts : Threads) (id id2 : String) (h : id2 ≠ id) :
    lookupThread (sendDispatch ts id) id2 = lookupThread ts id2 := by
  simp [sendDispatch, lookupThread_updateThread_ne _ _ _ _ h]

theorem lookupThread_sendStep_self (txt : String) (att : Option Attachment)
    (acc : Threads) (m : ModelConfig) :
    lookupThread (sendStep txt att acc m) m.id =
      { lookupThread acc m.id with
        messages := (lookupThread acc m.id).messages ++
          [{ role := Role.user, text := txt, attachment := att, usage := none }]
        isTyping := true
        error := none } := by
  simp [sendStep, lookupThread_sendDispatch_self, addMessage, lookupThread_updateThread_self]

theorem lookupThread_sendStep_ne (txt : String) (att : Option Attachment)
    (acc : Threads) (m : ModelConfig) (id2 : String) (h : id2 ≠ m.id) :
    lookupThread (sendStep txt att acc m) id2 = lookupThread acc id2 := by
  simp [sendStep, lookupThread_sendDispatch_ne _ _ _ h,
    lookupThread_addMessage_ne _ _ _ _ _ _ _ h]

theorem lookup_sendfold_notmem (txt : String) (att : Option Attachment) :
    ∀ (L : List ModelConfig) (acc : Threads) (id2 : String),
      id2 ∉ L.map ModelConfig.id →
      lookupThread (L.foldl (sendStep txt att) acc) id2 = lookupThread acc id2 := by
  intro L
  induction L with
  | nil => intro acc id2 _; rfl
  | cons hd tl ih =>
    intro acc id2 hmem
    simp only [List.map_cons, List.mem_cons, not_or] at hmem
    simp only [List.foldl_cons]
    rw [ih _ _ hmem.2, lookupThread_sendStep_ne _ _ _ _ _ hmem.1]

theorem lookup_sendfold_mem (txt : String) (att : Option Attachment) :
    ∀ (L : List ModelConfig) (acc : Threads) (m : ModelConfig),
      m ∈ L → (L.map ModelConfig.id).Nodup →
      lookupThread (L.foldl (sendStep txt att) acc) m.id =
        { lookupThread acc m.id with
          messages := (lookupThread acc m.id).messages ++
            [{ role := Role.user, text := txt, attachment := att, usage := none }]
          isTyping := true
          error := none } := by
  intro L
  induction L with
  | nil => intro acc m hm; exact absurd hm (List.not_mem_nil m)
  | cons hd tl ih =>
    intro acc m hm hnodup
    simp only [List.map_cons, List.nodup_cons] at hnodup
    simp only [List.foldl_cons]
    rcases List.mem_cons.mp hm with heq | htl
    · subst heq
      rw [lookup_sendfold_notmem _ _ _ _ _ hnodup.1, lookupThread_sendStep_self]
    · have hne : m.id ≠ hd.id := by
        intro hcontra
        exact hnodup.1 (hcontra ▸ List.mem_map_of_mem ModelConfig.id htl)
      rw [ih _ _ htl hnodup.2, lookupThread_sendStep_ne _ _ _ _ _ hne]

theorem sendSettle_ok_self (ts : Threads) (id t : String) (u : Option TokenUsage) :
    lookupThread (sendSettle ts id (SendOutcome.ok t u)) id =
      { lookupThread ts id with
        messages := (lookupThread ts id).messages ++
          [{ role := Role.model, text := t, attachment := none, usage := u }]
        totalTokens := (lookupThread ts id).totalTokens + (u.map TokenUsage.totalTokens).getD 0
        isTyping := false } := by
  simp [sendSettle, lookupThread_updateThread_self, addMessage]

theorem sendSettle_failure_self (ts : Threads) (id e : String) :
    lookupThread (sendSettle ts id (SendOutcome.failure e)) id =
      { lookupThread ts id with error := some e, isTyping := false } := by
  simp [sendSettle, lookupThread_updateThread_self]

theorem lookupThread_sendSettle_ne (ts : Threads) (id id2 : String) (o : SendOutcome)
    (h : id2 ≠ id) :
    lookupThread (sendSettle ts id o) id2 = lookupThread ts id2 := by
  cases o with
  | ok t u =>
    simp [sendSettle, lookupThread_updateThread_ne _ _ _ _ h,
      lookupThread_addMessage_ne _ _ _ _ _ _ _ h]
  | failure e =>
    simp [sendSettle, lookupThread_updateThread_ne _ _ _ _ h]

/-- **C6.** Starting from a thread's initial state, after appending
messages whose usage events are `U1..Un` the thread's cumulative token
total equals `Σ Ui.total` (events without usage contribute zero, so
with zero usage events the cumulative total is 0). -/
theorem token_accumulation (modelId : String) (events : List ChatEvent) :
    (lookupThread (applyChatEvents emptyThreads modelId events) modelId).totalTokens =
      (events.map usageTotal).sum := by
  have key : ∀ (evs : List ChatEvent) (ts : Threads),
      (lookupThread (applyChatEvents ts modelId evs) modelId).totalTokens =
        (lookupThread ts modelId).totalTokens + (evs.map usageTotal).sum := by
    intro evs
    induction evs with
    | nil => intro ts; simp [applyChatEvents]
    | cons ev rest ih =>
      intro ts
      simp only [applyChatEvents, List.foldl_cons] at ih ⊢
      rw [ih, totalTokens_addMessage_self]
      simp [usageTotal, Nat.add_assoc]
  rw [key]
  simp [lookupThread, emptyThreads, defaultThread]

/-- Counterexample to **C1** as stated: after a failed call the
orchestrator appends NO model-authored message — the single-model
thread holds only the pre-dispatch user message, with the error kept
in the thread's `error` field instead. -/
theorem sendFailure_appends_no_model_message :
    ((lookupThread (sendSettle (handleSendDispatch emptyThreads
        [{ id := "a", name := "A", provider := "openai", enabled := true
           capabilities := [Capability.text] }] "hi" none)
        "a" (SendOutcome.failure "boom")) "a").messages.filter
          (fun msg => msg.role = Role.model)).length = 0 ∧
    (lookupThread (sendSettle (handleSendDispatch emptyThreads
        [{ id := "a", name := "A", provider := "openai", enabled := true
           capabilities := [Capability.text] }] "hi" none)
        "a" (SendOutcome.failure "boom")) "a").error = some "boom" ∧
    (lookupThread (sendSettle (handleSendDispatch emptyThreads
        [{ id := "a", name := "A", provider := "openai", enabled := true
           capabilities := [Capability.text] }] "hi" none)
        "a" (SendOutcome.failure "boom")) "a").messages.length = 1 := by
  decide

/-- **C1 (amended).** For every user send action the orchestrator
appends exactly one user message (recorded once, before dispatch) to
every participating model's thread; after a model's call settles it
touches that model's thread only, appending exactly one model-authored
message with the generated text on success, while on failure it
appends NO message and records the error string in the thread's
`error` field instead. -/
theorem orchestrator_per_send_appends (ts : Threads) (models : List ModelConfig)
    (txt : String) (att : Option Attachment) (m : ModelConfig)
    (hguard : ¬(jsTrim txt = "" ∧ att = none))
    (hnodup : ((activeTextModels models).map ModelConfig.id).Nodup)
    (hm : m ∈ activeTextModels models) :
    (lookupThread (handleSendDispatch ts models txt att) m.id).messages =
      (lookupThread ts m.id).messages ++
        [{ role := Role.user, text := txt, attachment := att, usage := none }] ∧
    (∀ t u, (lookupThread (sendSettle (handleSendDispatch ts models txt att) m.id
        (SendOutcome.ok t u)) m.id).messages =
      (lookupThread (handleSendDispatch ts models txt att) m.id).messages ++
        [{ role := Role.model, text := t, attachment := none, usage := u }]) ∧
    (∀ e, (lookupThread (sendSettle (handleSendDispatch ts models txt att) m.id
        (SendOutcome.failure e)) m.id).messages =
      (lookupThread (handleSendDispatch ts models txt att) m.id).messages ∧
      (lookupThread (sendSettle (handleSendDispatch ts models txt att) m.id
        (SendOutcome.failure e)) m.id).error = some e) ∧
    (∀ (o : SendOutcome) (id2 : String), id2 ≠ m.id →
      lookupThread (sendSettle (handleSendDispatch ts models txt att) m.id o) id2 =
        lookupThread (handleSendDispatch ts models txt att) id2) := by
  have hactive : activeTextModels models ≠ [] := List.ne_nil_of_mem hm
  have hdisp : handleSendDispatch ts models txt att =
      (activeTextModels models).foldl (sendStep txt att) ts := by
    simp [handleSendDispatch, hguard, hactive]
  refine ⟨?_, ?_, ?_, ?_⟩
  · rw [hdisp, lookup_sendfold_mem _ _ _ _ _ hm hnodup]
  · intro t u
    rw [sendSettle_ok_self]
  · intro e
    rw [sendSettle_failure_self]
    exact ⟨rfl, rfl⟩
  · intro o id2 h2
    rw [lookupThread_sendSettle_ne _ _ _ _ h2]

/-- Witness for C1 on a two-model send with one success and one
failure. -/
theorem orchestrator_per_send_appends_witness :
    (lookupThread (handleSendDispatch emptyThreads
        [{ id := "a", name := "A", provider := "openai", enabled := true
           capabilities := [Capability.text] },
         { id := "b", name := "B", provider := "google", enabled := true
           capabilities := [Capability.text] }] "hi" none) "a").messages =
      [{ role := Role.user, text := "hi", attachment := none, usage := none }] ∧
    (lookupThread (sendSettle (handleSendDispatch emptyThreads
        [{ id := "a", name := "A", provider := "openai", enabled := true
           capabilities := [Capability.text] },
         { id := "b", name := "B", provider := "google", enabled := true
           capabilities := [Capability.text] }] "hi" none) "a"
        (SendOutcome.failure "boom")) "a").error = some "boom" := by
  have h := orchestrator_per_send_appends emptyThreads
    [{ id := "a", name := "A", provider := "openai", enabled := true
       capabilities := [Capability.text] },
     { id := "b", name := "B", provider := "google", enabled := true
       capabilities := [Capability.text] }] "hi" none
    { id := "a", name := "A", provider := "openai", enabled := true
      capabilities := [Capability.text] }
    (by decide) (by decide) (by decide)
  refine ⟨?_, (h.2.2.1 "boom").2⟩
  have h1 := h.1
  simpa [lookupThread, emptyThreads, defaultThread] using h1

/-- **C4.** For every (model, user action) request the thread's typing
flag is set true at dispatch and cleared on every exit path: a failed
call leaves that model's thread with the error recorded and
`typing = false`, while a concurrently dispatched successful sibling
model's thread reaches success with `typing = false` — in either
settlement order, each outcome independent of the other. -/
theorem typing_cleared_independent_outcomes (ts : Threads) (id1 id2 : String)
    (h : id1 ≠ id2) (e t2 : String) (u2 : Option TokenUsage) (ord : Bool)
    (final : Threads)
    (hfinal : final = if ord then
        sendSettle (sendSettle (sendDispatch (sendDispatch ts id1) id2) id1
          (SendOutcome.failure e)) id2 (SendOutcome.ok t2 u2)
      else
        sendSettle (sendSettle (sendDispatch (sendDispatch ts id1) id2) id2
          (SendOutcome.ok t2 u2)) id1 (SendOutcome.failure e)) :
    (lookupThread (sendDispatch (sendDispatch ts id1) id2) id1).isTyping = true ∧
    (lookupThread (sendDispatch (sendDispatch ts id1) id2) id2).isTyping = true ∧
    (lookupThread final id1).isTyping = false ∧
    (lookupThread final id1).error = some e ∧
    (lookupThread final id1).messages =
      (lookupThread (sendDispatch (sendDispatch ts id1) id2) id1).messages ∧
    (lookupThread final id2).isTyping = false ∧
    (lookupThread final id2).error = none ∧
    (lookupThread final id2).messages =
      (lookupThread (sendDispatch (sendDispatch ts id1) id2) id2).messages ++
        [{ role := Role.model, text := t2, attachment := none, usage := u2 }] := by
  have h21 : id2 ≠ id1 := fun hc => h hc.symm
  subst hfinal
  refine ⟨?_, ?_, ?_⟩
  · rw [lookupThread_sendDispatch_ne _ _ _ h, lookupThread_sendDispatch_self]
  · rw [lookupThread_sendDispatch_self]
  · cases ord with
    | true =>
      rw [if_pos rfl]
      refine ⟨?_, ?_, ?_, ?_, ?_, ?_⟩
      · rw [lookupThread_sendSettle_ne _ _ _ _ h, sendSettle_failure_self]
      · rw [lookupThread_sendSettle_ne _ _ _ _ h, sendSettle_failure_self]
      · rw [lookupThread_sendSettle_ne _ _ _ _ h, sendSettle_failure_self]
      · rw [sendSettle_ok_self, lookupThread_sendSettle_ne _ _ _ _ h21]
      · rw [sendSettle_ok_self, lookupThread_sendSettle_ne _ _ _ _ h21,
          lookupThread_sendDispatch_self]
      · rw [sendSettle_ok_self, lookupThread_sendSettle_ne _ _ _ _ h21]
    | false =>
      rw [if_neg (by decide)]
      refine ⟨?_, ?_, ?_, ?_, ?_, ?_⟩
      · rw [sendSettle_failure_self]
      · rw [sendSettle_failure_self]
      · rw [sendSettle_failure_self, lookupThread_sendSettle_ne _ _ _ _ h]
      · rw [lookupThread_sendSettle_ne _ _ _ _ h21, sendSettle_ok_self]
      · rw [lookupThread_sendSettle_ne _ _ _ _ h21, sendSettle_ok_self,
          lookupThread_sendDispatch_self]
      · rw [lookupThread_sendSettle_ne _ _ _ _ h21, sendSettle_ok_self]

/-- Witness for C4: one model fails with a simulated HTTP 500 while
its sibling succeeds. -/
theorem typing_cleared_independent_outcomes_witness :
    (lookupThread (sendSettle (sendSettle
        (sendDispatch (sendDispatch emptyThreads "a") "b")
        "a" (SendOutcome.failure "HTTP 500")) "b" (SendOutcome.ok "answer" none)) "a").isTyping
      = false ∧
    (lookupThread (sendSettle (sendSettle
        (sendDispatch (sendDispatch emptyThreads "a") "b")
        "a" (SendOutcome.failure "HTTP 500")) "b" (SendOutcome.ok "answer" none)) "a").error
      = some "HTTP 500" ∧
    (lookupThread (sendSettle (sendSettle
        (sendDispatch (sendDispatch emptyThreads "a") "b")
        "a" (SendOutcome.failure "HTTP 500")) "b" (SendOutcome.ok "answer" none)) "b").isTyping
      = false ∧
    (lookupThread (sendSettle (sendSettle
        (sendDispatch (sendDispatch emptyThreads "a") "b")
        "a" (SendOutcome.failure "HTTP 500")) "b" (SendOutcome.ok "answer" none)) "b").error
      = none := by
  have h := typing_cleared_independent_outcomes emptyThreads "a" "b" (by decide)
    "HTTP 500" "answer" none true
    (sendSettle (sendSettle (sendDispatch (sendDispatch emptyThreads "a") "b")
      "a" (SendOutcome.failure "HTTP 500")) "b" (SendOutcome.ok "answer" none)) rfl
  exact ⟨(h.2.2).1, (h.2.2).2.1, (h.2.2).2.2.2.1, (h.2.2).2.2.2.2.1⟩

theorem getSubstitution_no_dollar :
    ∀ (rep m b a : List Char), dollarChar ∉ rep → getSubstitution rep m b a = rep := by
  intro rep
  induction rep with
  | nil => intro m b a _; rfl
  | cons c rest ih =>
    intro m b a h
    cases rest with
    | nil => rfl
    | cons d rest2 =>
      have h1 : ¬ c = dollarChar := by
        intro hcc
        subst hcc
        exact h (List.mem_cons_self _ _)
      have h2 : dollarChar ∉ d :: rest2 := fun hm => h (List.mem_cons_of_mem c hm)
      rw [getSubstitution, if_neg h1, ih m b a h2]

theorem jsReplaceFirst_no_dollar (s pat rep : String) (h : dollarChar ∉ rep.data) :
    jsReplaceFirst s pat rep = plainReplaceFirst s pat rep := by
  unfold jsReplaceFirst plainReplaceFirst
  cases hsplit : findFirstSplit s.data pat.data with
  | none => rfl
  | some p =>
    obtain ⟨before, after⟩ := p
    simp [getSubstitution_no_dollar _ _ _ _ h]

theorem lookupThread_compareStep_ne (active : List ModelConfig) (settings : AppSettings)
    (snapshot acc : Threads) (target : ModelConfig) (id2 : String) (h : id2 ≠ target.id) :
    lookupThread (compareStep active settings snapshot acc target) id2 =
      lookupThread acc id2 := by
  unfold compareStep
  by_cases hothers : othersFor active snapshot target.id = []
  · rw [if_pos hothers]
  · rw [if_neg hothers, lookupThread_sendDispatch_ne _ _ _ h,
      lookupThread_addMessage_ne _ _ _ _ _ _ _ h]

theorem lookup_comparefold_skip (active : List ModelConfig) (settings : AppSettings)
    (snapshot : Threads) :
    ∀ (L : List ModelConfig) (acc : Threads) (tid : String),
      (∀ m ∈ L, m.id ≠ tid ∨ othersFor active snapshot m.id = []) →
      lookupThread (L.foldl (compareStep active settings snapshot) acc) tid =
        lookupThread acc tid := by
  intro L
  induction L with
  | nil => intro acc tid _; rfl
  | cons hd tl ih =>
    intro acc tid hskip
    simp only [List.foldl_cons]
    rw [ih _ _ (fun m hm => hskip m (List.mem_cons_of_mem hd hm))]
    rcases hskip hd (List.mem_cons_self _ _) with hne | hempty
    · exact lookupThread_compareStep_ne _ _ _ _ _ _ (fun hc => hne hc.symm)
    · unfold compareStep
      rw [hempty, if_pos rfl]

/-- Counterexample to **C5** as stated: JS `String.replace` interprets
`$`-escape sequences in the replacement, so when the other model's
last response is `$` followed by a quote the appended turn's text is
NOT the template with the placeholder replaced by the wrapped
response — the `$`-quote expands to the template text after the
placeholder. -/
theorem compare_dollar_substitution_example :
    ((lookupThread (handleGlobalCompare [c5ModelA, c5ModelB] c5Settings c5Threads)
        "a").messages.map Message.text) =
      ["ra", "X<model_response name=\"B\">Y</model_response>Y"] ∧
    plainReplaceFirst c5Template comparePlaceholder (wrapModelResponse "B" c5DollarText) =
      "X<model_response name=\"B\">" ++ c5DollarText ++ "</model_response>Y" ∧
    ("X<model_response name=\"B\">Y</model_response>Y" : String) ≠
      "X<model_response name=\"B\">" ++ c5DollarText ++ "</model_response>Y" := by
  refine ⟨by decide, by decide, by decide⟩

/-- **C5 (amended).** With exactly 2 active models whose threads each
end in a model-authored message, global compare appends to each model
exactly one new user turn whose text equals the compare template with
its placeholder replaced (via JS `String.replace`, which coincides
with plain substitution whenever the wrapped response contains no `$`)
by the other model's last response wrapped in a tag carrying that
model's display name; a model for which no other model has a
model-authored last message receives no turn and no error (no-op). -/
theorem global_compare_turns :
    (∀ (models : List ModelConfig) (settings : AppSettings) (ts : Threads)
       (m1 m2 : ModelConfig) (l1 l2 : Message),
      activeTextModels models = [m1, m2] →
      m1.id ≠ m2.id →
      lastMessageOf ts m1.id = some l1 → l1.role = Role.model →
      lastMessageOf ts m2.id = some l2 → l2.role = Role.model →
      dollarChar ∉ (wrapModelResponse m2.name l2.text).data →
      dollarChar ∉ (wrapModelResponse m1.name l1.text).data →
      (lookupThread (handleGlobalCompare models settings ts) m1.id).messages =
        (lookupThread ts m1.id).messages ++
          [{ role := Role.user
             text := plainReplaceFirst settings.comparePromptTemplate comparePlaceholder
               (wrapModelResponse m2.name l2.text)
             attachment := none, usage := none }] ∧
      (lookupThread (handleGlobalCompare models settings ts) m2.id).messages =
        (lookupThread ts m2.id).messages ++
          [{ role := Role.user
             text := plainReplaceFirst settings.comparePromptTemplate comparePlaceholder
               (wrapModelResponse m1.name l1.text)
             attachment := none, usage := none }]) ∧
    (∀ (models : List ModelConfig) (settings : AppSettings) (ts : Threads)
       (target : ModelConfig),
      target ∈ activeTextModels models →
      ((activeTextModels models).map ModelConfig.id).Nodup →
      othersFor (activeTextModels models) ts target.id = [] →
      lookupThread (handleGlobalCompare models settings ts) target.id =
        lookupThread ts target.id) := by
  constructor
  · intro models settings ts m1 m2 l1 l2 hactive hne h1 h1r h2 h2r hd2 hd1
    have hne21 : m2.id ≠ m1.id := fun hc => hne hc.symm
    have hothers1 : othersFor (activeTextModels models) ts m1.id =
        [wrapModelResponse m2.name l2.text] := by
      rw [hactive]
      simp [othersFor, hne21, h2, h2r]
    have hothers2 : othersFor (activeTextModels models) ts m2.id =
        [wrapModelResponse m1.name l1.text] := by
      rw [hactive]
      simp [othersFor, hne, h1, h1r]
    have hprompt1 : comparePromptFor settings [wrapModelResponse m2.name l2.text] =
        plainReplaceFirst settings.comparePromptTemplate comparePlaceholder
          (wrapModelResponse m2.name l2.text) := by
      unfold comparePromptFor joinWith
      exact jsReplaceFirst_no_dollar _ _ _ hd2
    have hprompt2 : comparePromptFor settings [wrapModelResponse m1.name l1.text] =
        plainReplaceFirst settings.comparePromptTemplate comparePlaceholder
          (wrapModelResponse m1.name l1.text) := by
      unfold comparePromptFor joinWith
      exact jsReplaceFirst_no_dollar _ _ _ hd1
    have hfold : handleGlobalCompare models settings ts =
        compareStep (activeTextModels models) settings ts
          (compareStep (activeTextModels models) settings ts ts m1) m2 := by
      unfold handleGlobalCompare
      rw [hactive]
      norm_num [List.foldl_cons]
    rw [hfold]
    constructor
    · rw [lookupThread_compareStep_ne _ _ _ _ _ _ hne]
      unfold compareStep
      rw [hothers1, if_neg (by simp), hprompt1,
        lookupThread_sendDispatch_self, messages_addMessage_self]
      rfl
    · unfold compareStep
      rw [hothers2, hothers1, if_neg (by simp), if_neg (by simp), hprompt2,
        lookupThread_sendDispatch_self, messages_addMessage_self,
        lookupThread_sendDispatch_ne _ _ _ hne21,
        lookupThread_addMessage_ne _ _ _ _ _ _ _ hne21]
      rfl
  · intro models settings ts target htarget hnodup hempty
    unfold handleGlobalCompare
    by_cases hlen : (activeTextModels models).length < 2
    · rw [if_pos hlen]
    · rw [if_neg hlen]
      apply lookup_comparefold_skip
      intro m hm
      by_cases hid : m.id = target.id
      · refine Or.inr ?_
        have hmt : m = target :=
          List.inj_on_of_nodup_map hnodup hm htarget hid
        rw [hid]
        exact hempty
      · exact Or.inl hid

/-- Witness for C5 with two active models and dollar-free responses. -/
theorem global_compare_turns_witness :
    (lookupThread (handleGlobalCompare [c5ModelA, c5ModelB] w5Settings w5Threads)
        "a").messages =
      (lookupThread w5Threads "a").messages ++
        [{ role := Role.user
           text := plainReplaceFirst ("Compare: " ++ comparePlaceholder) comparePlaceholder
             (wrapModelResponse "B" "beta")
           attachment := none, usage := none }] := by
  have h := global_compare_turns.1 [c5ModelA, c5ModelB] w5Settings w5Threads
    c5ModelA c5ModelB
    { role := Role.model, text := "alpha" } { role := Role.model, text := "beta" }
    (by decide) (by decide) (by decide) (by decide) (by decide) (by decide)
    (by decide) (by decide)
  exact h.1

theorem flattenBlocks_append (l1 l2 : List ATurn) :
    flattenBlocks (l1 ++ l2) = flattenBlocks l1 ++ flattenBlocks l2 := by
  simp [flattenBlocks]

theorem normStep_preserves (acc : NormAcc) (msg : Message) (h : normInv acc) :
    normInv (normStep acc msg) ∧
    flattenBlocks (finishAcc (normStep acc msg)) =
      flattenBlocks (finishAcc acc) ++ blocksOf msg := by
  by_cases hempty : blocksOf msg = []
  · have hstep : normStep acc msg = acc := by
      simp [normStep, hempty]
    rw [hstep, hempty, List.append_nil]
    exact ⟨h, rfl⟩
  · by_cases hrole : acc.currentRole = some (aRoleOf msg.role)
    · have hstep : normStep acc msg =
          { acc with currentBlocks := acc.currentBlocks ++ blocksOf msg } := by
        simp [normStep, hempty, hrole]
      rw [hstep]
      refine ⟨⟨?_, ?_⟩, ?_⟩
      · have h1 := h.1
        unfold roleAlternating finishAcc flushAcc at h1 ⊢
        rw [hrole] at h1 ⊢
        simpa using h1
      · intro hnone
        rw [hrole] at hnone
        exact absurd hnone (by simp)
      · unfold finishAcc flushAcc
        rw [hrole]
        simp [flattenBlocks]
    · have hstep : normStep acc msg =
          { normalized := acc.normalized ++ flushAcc acc
            currentRole := some (aRoleOf msg.role)
            currentBlocks := blocksOf msg } := by
        simp [normStep, hempty, hrole]
      rw [hstep]
      refine ⟨⟨?_, ?_⟩, ?_⟩
      · have h1 := h.1
        unfold roleAlternating finishAcc flushAcc at h1 ⊢
        simp only []
        rw [List.map_append]
        rw [List.chain'_append]
        refine ⟨by simpa using h1, by simp, ?_⟩
        intro x hx y hy
        simp only [List.map_cons, List.map_nil, List.head?_cons, Option.mem_def,
          Option.some.injEq] at hy
        subst hy
        cases hcr : acc.currentRole with
        | none =>
          rw [h.2 hcr] at hx
          simp [flushAcc, hcr] at hx
        | some r =>
          simp only [flushAcc, hcr, List.map_append, List.map_cons, List.map_nil,
            List.getLast?_concat, Option.mem_def, Option.some.injEq] at hx
          subst hx
          intro hcontra
          exact hrole (by rw [hcr, hcontra])
      · intro hnone
        exact absurd hnone (by simp)
      · unfold finishAcc flushAcc
        simp [flattenBlocks]

theorem foldl_normStep_inv :
    ∀ (msgs : List Message) (acc : NormAcc), normInv acc →
      normInv (msgs.foldl normStep acc) ∧
      flattenBlocks (finishAcc (msgs.foldl normStep acc)) =
        flattenBlocks (finishAcc acc) ++ msgs.flatMap blocksOf := by
  intro msgs
  induction msgs with
  | nil =>
    intro acc h
    simp only [List.foldl_nil, List.flatMap_nil, List.append_nil]
    exact ⟨h, trivial⟩
  | cons m rest ih =>
    intro acc h
    have hstep := normStep_preserves acc m h
    have hrest := ih (normStep acc m) hstep.1
    simp only [List.foldl_cons]
    refine ⟨hrest.1, ?_⟩
    rw [hrest.2, hstep.2]
    simp [List.append_assoc]

theorem normInv_init : normInv ⟨[], none, []⟩ :=
  ⟨by simp [roleAlternating, finishAcc, flushAcc], fun _ => rfl⟩

theorem mergedTurns_eq_finish (history : List Message) (newMessage : String)
    (attachment : Option Attachment) :
    mergedTurns history newMessage attachment =
      finishAcc ((history ++ [currentMsg newMessage attachment]).foldl normStep
        ⟨[], none, []⟩) := rfl

theorem mergedTurns_spec (history : List Message) (newMessage : String)
    (attachment : Option Attachment) :
    roleAlternating (mergedTurns history newMessage attachment) ∧
    flattenBlocks (mergedTurns history newMessage attachment) =
      (history ++ [currentMsg newMessage attachment]).flatMap blocksOf := by
  obtain ⟨hinv, hflat⟩ :=
    foldl_normStep_inv (history ++ [currentMsg newMessage attachment]) _ normInv_init
  rw [mergedTurns_eq_finish]
  refine ⟨hinv.1, ?_⟩
  rw [hflat]
  simp [finishAcc, flushAcc, flattenBlocks]

theorem blocksOf_currentMsg_ne (newMessage : String) (attachment : Option Attachment)
    (hcontent : attachment ≠ none ∨ jsTrim newMessage ≠ "") :
    blocksOf (currentMsg newMessage attachment) ≠ [] := by
  unfold blocksOf currentMsg
  rcases hcontent with hatt | htrim
  · cases attachment with
    | none => exact absurd rfl hatt
    | some a =>
      simp only []
      split_ifs <;> simp
  · cases attachment with
    | none => simp [htrim]
    | some a =>
      simp only []
      split_ifs <;> simp

theorem normStep_user_currentRole (acc : NormAcc) (msg : Message)
    (hne : blocksOf msg ≠ []) (hrole : msg.role = Role.user) :
    (normStep acc msg).currentRole = some ARole.user := by
  have haru : aRoleOf msg.role = ARole.user := by
    rw [hrole]
    rfl
  unfold normStep
  rw [if_neg hne]
  by_cases hcr : acc.currentRole = some (aRoleOf msg.role)
  · rw [if_pos hcr]
    rw [hcr, haru]
  · rw [if_neg hcr]
    rw [haru]

theorem finishAcc_last_of_currentRole (acc : NormAcc) (r : ARole)
    (h : acc.currentRole = some r) :
    ((finishAcc acc).map ATurn.role).getLast? = some r ∧ finishAcc acc ≠ [] := by
  unfold finishAcc flushAcc
  rw [h]
  constructor
  · rw [List.map_append]
    simp [List.getLast?_concat]
  · simp

theorem mergedTurns_last_user (history : List Message) (newMessage : String)
    (attachment : Option Attachment)
    (hcontent : attachment ≠ none ∨ jsTrim newMessage ≠ "") :
    ((mergedTurns history newMessage attachment).map ATurn.role).getLast? =
      some ARole.user ∧
    mergedTurns history newMessage attachment ≠ [] := by
  have hcur : ((history ++ [currentMsg newMessage attachment]).foldl normStep
      ⟨[], none, []⟩).currentRole = some ARole.user := by
    rw [List.foldl_append]
    simp only [List.foldl_cons, List.foldl_nil]
    exact normStep_user_currentRole _ _
      (blocksOf_currentMsg_ne newMessage attachment hcontent) rfl
  rw [mergedTurns_eq_finish]
  exact finishAcc_last_of_currentRole _ _ hcur

/-- Counterexample to **C3** as stated: the non-empty conversation
whose history is one model-authored message and whose new user message
is blank normalizes to the EMPTY output (the only merged turn is
assistant-led and the leading-turn drop removes it), so the output
does not start with a `user`-role entry. -/
theorem normalize_empty_output_example :
    normalizeMessages [{ role := Role.model, text := "hi" }] "" none = [] ∧
    ¬ (((normalizeMessages [{ role := Role.model, text := "hi" }] "" none).map
        ATurn.role).head? = some ARole.user) := by
  refine ⟨by decide, by decide⟩

/-- **C3 (amended).** For every conversation input whose trailing
synthetic user turn has content (a non-blank new message or an
attachment), the Anthropic-style normalizer's output starts with a
`user`-role entry and never contains two consecutive same-role
entries; adjacent same-role turns are merged by concatenating their
content blocks in order (the merged turn list carries exactly the
blocks of the inputs, in order), and a leading non-user turn left
after merging is dropped.  (When the trailing turn is empty the output
can be empty instead.) -/
theorem normalize_structure (history : List Message) (newMessage : String)
    (attachment : Option Attachment)
    (hcontent : attachment ≠ none ∨ jsTrim newMessage ≠ "") :
    ((normalizeMessages history newMessage attachment).map ATurn.role).head? =
      some ARole.user ∧
    roleAlternating (normalizeMessages history newMessage attachment) ∧
    flattenBlocks (mergedTurns history newMessage attachment) =
      (history ++ [currentMsg newMessage attachment]).flatMap blocksOf ∧
    (normalizeMessages history newMessage attachment =
        mergedTurns history newMessage attachment ∨
      ∃ t, mergedTurns history newMessage attachment =
          t :: normalizeMessages history newMessage attachment ∧
        t.role ≠ ARole.user) := by
  obtain ⟨halt, hflat⟩ := mergedTurns_spec history newMessage attachment
  obtain ⟨hlast, hne⟩ := mergedTurns_last_user history newMessage attachment hcontent
  cases hm : mergedTurns history newMessage attachment with
  | nil => exact absurd hm hne
  | cons t rest =>
    rw [hm] at halt hlast hflat
    have hnorm : normalizeMessages history newMessage attachment =
        if t.role ≠ ARole.user then rest else t :: rest := by
      unfold normalizeMessages
      rw [hm]
    by_cases ht : t.role = ARole.user
    · have hnorm2 : normalizeMessages history newMessage attachment = t :: rest := by
        rw [hnorm, if_neg (by simp [ht])]
      rw [hnorm2]
      exact ⟨by simp [ht], halt, hflat, Or.inl rfl⟩
    · have hnorm2 : normalizeMessages history newMessage attachment = rest := by
        rw [hnorm, if_pos ht]
      rw [hnorm2]
      have hresthead : (rest.map ATurn.role).head? = some ARole.user := by
        cases rest with
        | nil =>
          simp only [List.map_cons, List.map_nil, List.getLast?_singleton] at hlast
          exact absurd (Option.some.inj hlast) ht
        | cons u rest2 =>
          have hchain : t.role ≠ u.role := by
            unfold roleAlternating at halt
            simp only [List.map_cons] at halt
            exact (List.chain'_cons.mp halt).1
          have hu : u.role = ARole.user := by
            cases hur : u.role with
            | user => rfl
            | assistant =>
              cases htr : t.role with
              | user => exact absurd htr ht
              | assistant => exact absurd (htr.trans hur.symm) hchain
          simp [hu]
      refine ⟨hresthead, ?_, hflat, Or.inr ⟨t, rfl, ht⟩⟩
      unfold roleAlternating at halt ⊢
      simp only [List.map_cons] at halt
      exact (List.chain'_cons'.mp halt).2

/-- Witness for C3 on a short mixed-role history with a non-blank new
message. -/
theorem normalize_structure_witness :
    ((normalizeMessages
        [{ role := Role.user, text := "hi" }, { role := Role.model, text := "yo" }]
        "ok" none).map ATurn.role).head? = some ARole.user ∧
    roleAlternating (normalizeMessages
        [{ role := Role.user, text := "hi" }, { role := Role.model, text := "yo" }]
        "ok" none) := by
  have h := normalize_structure
    [{ role := Role.user, text := "hi" }, { role := Role.model, text := "yo" }]
    "ok" none (Or.inr (by decide))
  exact ⟨h.1, h.2.1⟩

/-- Counterexample to **C7** as stated: the code's first fallback also
matches parenthesized and bare URLs in the text content, not only
markdown image links.  On a response whose content holds a bare URL
(no markdown image link) while the nested image-reference field is
set, no markdown image link matches and strategy 2 is available, yet
the parser returns the content URL, not the strategy-2 nested URL. -/
theorem openrouter_strategy_order_example :
    scanMarkdownImage (orContent c7Resp).data = none ∧
    optTruthy (orNestedImageUrl c7Resp) = true ∧
    parseOpenRouterImage c7Resp = Except.ok
      [{ url := "https://img.example/pic.png", mimeType := "image/png"
         metadata := some { width := 1024, height := 1024
                            revisedPrompt := some "see https://img.example/pic.png" } }] ∧
    parseOpenRouterImage c7Resp ≠ Except.ok
      [{ url := "https://nested.example/n.png", mimeType := "image/png"
         metadata := some { width := 1024, height := 1024 } }] := by
  refine ⟨by decide, by decide, by decide, by decide⟩

/-- **C7 (amended).** With strategy 1 read as the code's full
content-URL extraction (markdown image link, parenthesized URL, or
bare URL, with a truthy capture), the OpenRouter image parser tries
the strategies in fixed priority order — content capture, nested
`images[0].image_url.url`, nested `images[0].url`, root `data[0]`
URL/base64 — returns the result defined by the first strategy that
matches, and raises the `No image URL found` error only after all
strategies fail. -/
theorem openrouter_fallback_order (resp : ORResponse) :
    (optTruthy (contentCapture (orContent resp)) = true →
      parseOpenRouterImage resp = Except.ok
        [{ url := (contentCapture (orContent resp)).getD ""
           mimeType := "image/png"
           metadata := some { width := 1024, height := 1024
                              revisedPrompt := some (orContent resp) } }]) ∧
    (optTruthy (contentCapture (orContent resp)) = false →
      optTruthy (orNestedImageUrl resp) = true →
      parseOpenRouterImage resp = Except.ok
        [{ url := (orNestedImageUrl resp).getD "", mimeType := "image/png"
           metadata := some { width := 1024, height := 1024 } }]) ∧
    (optTruthy (contentCapture (orContent resp)) = false →
      optTruthy (orNestedImageUrl resp) = false →
      optTruthy (orNestedUrl resp) = true →
      parseOpenRouterImage resp = Except.ok
        [{ url := (orNestedUrl resp).getD "", mimeType := "image/png"
           metadata := some { width := 1024, height := 1024 } }]) ∧
    (optTruthy (contentCapture (orContent resp)) = false →
      optTruthy (orNestedImageUrl resp) = false →
      optTruthy (orNestedUrl resp) = false →
      (optTruthy (orDataUrl resp) || optTruthy (orDataB64 resp)) = true →
      parseOpenRouterImage resp = Except.ok
        [{ url := if optTruthy (orDataB64 resp) then
             "data:image/png;base64," ++ (orDataB64 resp).getD ""
           else (orDataUrl resp).getD ""
           mimeType := "image/png"
           metadata := some { width := 1024, height := 1024 } }]) ∧
    (optTruthy (contentCapture (orContent resp)) = false →
      optTruthy (orNestedImageUrl resp) = false →
      optTruthy (orNestedUrl resp) = false →
      (optTruthy (orDataUrl resp) || optTruthy (orDataB64 resp)) = false →
      parseOpenRouterImage resp =
        Except.error ("No image URL found in OpenRouter response. Content: " ++
          String.mk ((orContent resp).data.take 100))) := by
  refine ⟨?_, ?_, ?_, ?_, ?_⟩
  · intro h1
    simp [parseOpenRouterImage, h1]
  · intro h1 h2
    simp [parseOpenRouterImage, h1, h2]
  · intro h1 h2 h3
    simp [parseOpenRouterImage, h1, h2, h3]
  · intro h1 h2 h3 h4
    simp [parseOpenRouterImage, h1, h2, h3, h4]
  · intro h1 h2 h3 h4
    simp [parseOpenRouterImage, h1, h2, h3, h4]

/-- Witness for C7: a strategy-2 fixture and an all-strategies-fail
fixture. -/
theorem openrouter_fallback_order_witness :
    parseOpenRouterImage w7Resp = Except.ok
      [{ url := "https://n.example/x.png", mimeType := "image/png"
         metadata := some { width := 1024, height := 1024 } }] ∧
    parseOpenRouterImage { choices := [], data := [] } =
      Except.error ("No image URL found in OpenRouter response. Content: " ++
        String.mk ((orContent { choices := [], data := [] }).data.take 100)) := by
  constructor
  · have h := (openrouter_fallback_order w7Resp).2.1 (by decide) (by decide)
    rw [h]
    rfl
  · exact (openrouter_fallback_order { choices := [], data := [] }).2.2.2.2
      (by decide) (by decide) (by decide) (by decide)

end Council
